import Mathlib

/-!
Shallow embedding of the Artifactory Terraform provider configuration handshake
(package provider, ArtifactoryProvider.Configure) and of the local gradle
repository resource helpers, together with theorems settling the frozen claims
about them.  External collaborators (the shared client and util libraries) are
modelled as oracles; where a claim depends on a documented collaborator
behaviour that is not part of these sources, the definition carries a comment
starting with Modelled from the spec.
-/

namespace ArtifactoryProvider

/-- Diagnostic severity mirroring the terraform-plugin-framework severities. -/
inductive Severity
  | error
  | warning
deriving DecidableEq, Repr

/-- One diagnostic as appended by resp.Diagnostics.AddError or AddWarning. -/
structure Diagnostic where
  severity : Severity
  summary : String
  detail : String
deriving DecidableEq, Repr

/-- resp.Diagnostics.HasError: true when some recorded diagnostic is an error. -/
def hasErrorDiag (ds : List Diagnostic) : Bool :=
  ds.any (fun d => d.severity = Severity.error)

/-- Abstract handle for the Resty HTTP client built by the shared client library. -/
structure RestyClient where
  id : Nat
deriving DecidableEq, Repr

/-- The provider configuration model (ArtifactoryProviderModel).  Each
types.String field is represented by its ValueString result (a null value
becomes the empty string) and the check_license bool by an Option Bool
(none models a null value, matching IsNull). -/
structure ArtifactoryProviderModel where
  url : String
  accessToken : String
  apiKey : String
  oidcProviderName : String
  checkLicense : Option Bool
deriving DecidableEq, Repr

/-- util.ProviderMetadata handed to resource and data-source instances. -/
structure ProviderMetadata where
  client : RestyClient
  productId : String
  artifactoryVersion : String
deriving DecidableEq, Repr

/-- The fields of provider.ConfigureResponse that Configure writes. -/
structure ConfigureResponse where
  diagnostics : List Diagnostic
  dataSourceData : Option ProviderMetadata
  resourceData : Option ProviderMetadata
deriving DecidableEq, Repr

/-- Collaborator invocations made during Configure, recorded in call order. -/
inductive CallEvent
  | build (url productId : String)
  | oidcExchange (providerName : String)
  | addAuth (apiKey accessToken : String)
  | checkLicense
  | getVersion
  | sendUsage
deriving DecidableEq, Repr

/-- The external collaborators Configure calls, modelled as oracles.  A Go
function returning a pair of a value and an error is modelled as returning the
value together with an optional error string.  oidcExchangeRaw is the actual
identity-provider token exchange performed for a configured provider name. -/
structure Collaborators where
  build : String → String → RestyClient × Option String
  oidcExchangeRaw : RestyClient → String → String × Option String
  addAuth : RestyClient → String → String → RestyClient × Option String
  checkArtifactoryLicense : RestyClient → List String → Option String
  getArtifactoryVersion : RestyClient → String × Option String

/-- Modelled from the spec: util.CheckEnvVars (shared util library, not under
these sources) returns the value of the first listed environment variable that
is non-empty, else the given default.  The environment is a total map from
variable names to values, with the empty string standing for unset. -/
def CheckEnvVars (env : String → String) : List String → String → String
  | [], dv => dv
  | k :: ks, dv => if env k = "" then CheckEnvVars env ks dv else env k

/-- Modelled from the spec: util.OIDCTokenExchange (shared util library, not
under these sources) attempts the identity-provider token exchange only when an
OIDC provider name is configured; with an empty name it yields an empty token
and no error without attempting any exchange.  The returned event list records
whether the exchange was attempted. -/
def OIDCTokenExchange (c : Collaborators) (cl : RestyClient) (providerName : String) :
    (String × Option String) × List CallEvent :=
  if providerName = "" then (("", none), [])
  else (c.oidcExchangeRaw cl providerName, [CallEvent.oidcExchange providerName])

/-- A resolved credential: exactly one of an api key or an access token. -/
inductive Credential
  | apiKey (k : String)
  | accessToken (t : String)
deriving DecidableEq, Repr

/-- Modelled from the spec: the credential client.AddAuth (shared client
library, not under these sources) attaches to the client — the access token
takes precedence over the api key at the authentication-attachment step. -/
def resolvedCredential (apiKey accessToken : String) : Credential :=
  if accessToken = "" then Credential.apiKey apiKey else Credential.accessToken accessToken

/-- The diagnostic added when no URL resolves. -/
def missingUrlDiag : Diagnostic :=
  { severity := Severity.error,
    summary := "Missing URL Configuration",
    detail := "While configuring the provider, the url was not found in the JFROG_URL/ARTIFACTORY_URL environment variable or provider configuration block url attribute." }

/-- The diagnostic added when neither an api key nor an access token resolves. -/
def missingCredentialDiag : Diagnostic :=
  { severity := Severity.error,
    summary := "Missing JFrog API key or Access Token",
    detail := "While configuring the provider, the API key or Access Token was not found in the environment variables or provider configuration attributes." }

/-- config.CheckLicense.IsNull() or config.CheckLicense.ValueBool(). -/
def doCheckLicense : Option Bool → Bool
  | none => true
  | some b => b

/-- The allowed license types Configure passes to util.CheckArtifactoryLicense. -/
def licenseTypes : List String := ["Enterprise", "Commercial", "Edge"]

/-- The tail of Configure from the client.AddAuth call to the end (note the
source adds an error diagnostic on an AddAuth failure but does not return
there).  diags and events1 are the diagnostics and call log accumulated so
far; restyClient the built client; apiKey and accessToken the resolved
credentials; checkLicense the config flag.  The fire-and-forget telemetry send
is recorded as a sendUsage event. -/
def configureTail (c : Collaborators) (pid : String) (diags : List Diagnostic)
    (events1 : List CallEvent) (restyClient : RestyClient)
    (apiKey accessToken : String) (checkLicense : Option Bool) :
    ConfigureResponse × List CallEvent :=
  let ares := c.addAuth restyClient apiKey accessToken
  let restyClient2 := ares.1
  let diags1 := diags ++
    (match ares.2 with
     | some e => [⟨Severity.error, "Error adding Auth to Resty client", e⟩]
     | none => [])
  let events2 := events1 ++ [CallEvent.addAuth apiKey accessToken]
  let afterLicense : List Diagnostic → List CallEvent → ConfigureResponse × List CallEvent :=
    fun ds evs =>
      let vres := c.getArtifactoryVersion restyClient2
      match vres.2 with
      | some e =>
        ({ diagnostics := ds ++ [⟨Severity.error, "Error getting Artifactory version",
             "The provider functionality might be affected by the absence of Artifactory version in the context. " ++ e⟩],
           dataSourceData := none, resourceData := none },
         evs ++ [CallEvent.getVersion])
      | none =>
        let meta : ProviderMetadata :=
          { client := restyClient2, productId := pid, artifactoryVersion := vres.1 }
        ({ diagnostics := ds, dataSourceData := some meta, resourceData := some meta },
         evs ++ [CallEvent.getVersion, CallEvent.sendUsage])
  if doCheckLicense checkLicense then
    match c.checkArtifactoryLicense restyClient2 licenseTypes with
    | some e =>
      ({ diagnostics := diags1 ++ [⟨Severity.error, "Error checking Artifactory license", e⟩],
         dataSourceData := none, resourceData := none },
       events2 ++ [CallEvent.checkLicense])
    | none => afterLicense diags1 (events2 ++ [CallEvent.checkLicense])
  else
    afterLicense diags1 events2

/-- Shallow embedding of ArtifactoryProvider.Configure.  env models the process
environment (empty string meaning unset); getCfg models req.Config.Get, namely
the decoded provider model together with the diagnostics that call appends; c
holds the external collaborators and pid the package-level productId value.
Returns the response fields together with the ordered log of collaborator
calls. -/
def Configure (env : String → String) (getCfg : ArtifactoryProviderModel × List Diagnostic)
    (c : Collaborators) (pid : String) : ConfigureResponse × List CallEvent :=
  let url0 := CheckEnvVars env ["JFROG_URL", "ARTIFACTORY_URL"] ""
  let accessToken0 := CheckEnvVars env ["JFROG_ACCESS_TOKEN", "ARTIFACTORY_ACCESS_TOKEN"] ""
  let config := getCfg.1
  let diags := getCfg.2
  if hasErrorDiag diags then
    ({ diagnostics := diags, dataSourceData := none, resourceData := none }, [])
  else
    let url := if config.url ≠ "" then config.url else url0
    if url = "" then
      ({ diagnostics := diags ++ [missingUrlDiag],
         dataSourceData := none, resourceData := none }, [])
    else
      let bres := c.build url pid
      match bres.2 with
      | some e =>
        ({ diagnostics := diags ++ [⟨Severity.error, "Error creating Resty client", e⟩],
           dataSourceData := none, resourceData := none }, [CallEvent.build url pid])
      | none =>
        let restyClient := bres.1
        let ox := OIDCTokenExchange c restyClient config.oidcProviderName
        let events1 := CallEvent.build url pid :: ox.2
        match ox.1.2 with
        | some e =>
          ({ diagnostics := diags ++ [⟨Severity.error, "Failed OIDC ID token exchange", e⟩],
             dataSourceData := none, resourceData := none }, events1)
        | none =>
          let oidcAccessToken := ox.1.1
          let accessToken1 := if oidcAccessToken ≠ "" then oidcAccessToken else accessToken0
          let accessToken2 := if config.accessToken ≠ "" then config.accessToken else accessToken1
          let apiKey := config.apiKey
          if apiKey = "" ∧ accessToken2 = "" then
            ({ diagnostics := diags ++ [missingCredentialDiag],
               dataSourceData := none, resourceData := none }, events1)
          else
            configureTail c pid diags events1 restyClient apiKey accessToken2 config.checkLicense

/-- Parameters shared by all local repositories (LocalRepositoryBaseParams,
declared in a sibling source file).  Only the fields the claims mention are
modelled. -/
structure LocalRepositoryBaseParams where
  key : String := ""
  rclass : String := ""
  packageType : String := ""
deriving DecidableEq, Repr

/-- GradleLocalRepositoryParams: the base params embedded struct plus the
gradle-specific fields. -/
structure GradleLocalRepositoryParams where
  base : LocalRepositoryBaseParams := {}
  checksumPolicyType : String := ""
  snapshotVersionBehavior : String := ""
  maxUniqueSnapshots : Int := 0
  handleReleases : Bool := false
  handleSnapshots : Bool := false
  suppressPomConsistencyChecks : Bool := false
deriving DecidableEq, Repr

/-- The resource-data getters and sibling-file helpers that
unPackLocalGradleRepository uses, left abstract: the claims about it hold for
every behaviour of these operations. -/
structure ResourceDataOps where
  getString : String → Bool → String
  getInt : String → Bool → Int
  getBool : String → Bool → Bool
  unpackBaseLocalRepo : String → LocalRepositoryBaseParams
  idOf : GradleLocalRepositoryParams → String

/-- Shallow embedding of unPackLocalGradleRepository: builds the gradle params
from the resource data and returns them together with repo.Id() and a nil
error. -/
def unPackLocalGradleRepository (d : ResourceDataOps) :
    GradleLocalRepositoryParams × String × Option String :=
  let repo : GradleLocalRepositoryParams :=
    { base := d.unpackBaseLocalRepo "gradle",
      checksumPolicyType := d.getString "checksum_policy_type" false,
      snapshotVersionBehavior := d.getString "snapshot_version_behavior" false,
      maxUniqueSnapshots := d.getInt "max_unique_snapshots" false,
      handleReleases := d.getBool "handle_releases" false,
      handleSnapshots := d.getBool "handle_snapshots" false,
      suppressPomConsistencyChecks := d.getBool "suppress_pom_consistency_checks" false }
  (repo, d.idOf repo, none)

/-- The constructor closure that resourceArtifactoryLocalGradleRepository
passes to mkResourceSchema: a GradleLocalRepositoryParams value whose embedded
base params set PackageType to gradle and Rclass to local. -/
def localGradleRepositoryConstructor : GradleLocalRepositoryParams :=
  { base := { packageType := "gradle", rclass := "local" } }

/-- An environment with every variable unset. -/
def emptyEnv : String → String := fun _ => ""

/-- Collaborators for which every external call succeeds. -/
def stubCollab : Collaborators where
  build := fun _ _ => (⟨0⟩, none)
  oidcExchangeRaw := fun _ _ => ("oidc-tok", none)
  addAuth := fun cl _ _ => (⟨cl.id + 1⟩, none)
  checkArtifactoryLicense := fun _ _ => none
  getArtifactoryVersion := fun _ => ("7.77.0", none)

/-- Collaborators for which only the version lookup fails. -/
def versionFailCollab : Collaborators where
  build := fun _ _ => (⟨0⟩, none)
  oidcExchangeRaw := fun _ _ => ("", none)
  addAuth := fun cl _ _ => (cl, none)
  checkArtifactoryLicense := fun _ _ => none
  getArtifactoryVersion := fun _ => ("", some "connection refused")

/-- Collaborators for which only the credential attachment fails. -/
def addAuthFailCollab : Collaborators where
  build := fun _ _ => (⟨0⟩, none)
  oidcExchangeRaw := fun _ _ => ("", none)
  addAuth := fun _ _ _ => (⟨99⟩, some "auth refused")
  checkArtifactoryLicense := fun _ _ => none
  getArtifactoryVersion := fun _ => ("7.90.4", none)

/-- Collaborators whose OIDC exchange yields the token o and everything else
succeeds. -/
def oidcTokenCollab : Collaborators where
  build := fun _ _ => (⟨0⟩, none)
  oidcExchangeRaw := fun _ _ => ("o", none)
  addAuth := fun cl _ _ => (cl, none)
  checkArtifactoryLicense := fun _ _ => none
  getArtifactoryVersion := fun _ => ("7.0.0", none)

/-- Collaborators whose OIDC exchange fails and everything else succeeds. -/
def oidcFailCollab : Collaborators where
  build := fun _ _ => (⟨0⟩, none)
  oidcExchangeRaw := fun _ _ => ("", some "exchange failed")
  addAuth := fun cl _ _ => (cl, none)
  checkArtifactoryLicense := fun _ _ => none
  getArtifactoryVersion := fun _ => ("7.0.0", none)

/-- Collaborators whose license check fails and everything else succeeds. -/
def licenseFailCollab : Collaborators where
  build := fun _ _ => (⟨0⟩, none)
  oidcExchangeRaw := fun _ _ => ("", none)
  addAuth := fun cl _ _ => (⟨cl.id + 1⟩, none)
  checkArtifactoryLicense := fun _ _ => some "license not allowed"
  getArtifactoryVersion := fun _ => ("7.55.0", none)

lemma checkEnvVars_pair (env : String → String) (a b : String) :
    CheckEnvVars env [a, b] "" =
      if env a ≠ "" then env a else if env b ≠ "" then env b else "" := by
  by_cases h1 : env a = "" <;> by_cases h2 : env b = "" <;>
    simp [CheckEnvVars, h1, h2]

lemma not_mem_of_hasErrorDiag_false {ds : List Diagnostic} {d : Diagnostic}
    (hds : hasErrorDiag ds = false) (hsev : d.severity = Severity.error) : d ∉ ds := by
  intro hmem
  have := List.any_eq_false.mp hds d hmem
  simp [hsev] at this

lemma OIDCTokenExchange_events (c : Collaborators) (cl : RestyClient) (nm : String) :
    (OIDCTokenExchange c cl nm).2 =
      if nm = "" then [] else [CallEvent.oidcExchange nm] := by
  unfold OIDCTokenExchange
  split <;> simp_all

lemma configureTail_addAuth_mem (c : Collaborators) (pid : String) (diags : List Diagnostic)
    (events1 : List CallEvent) (cl : RestyClient) (k t : String) (lic : Option Bool) :
    CallEvent.addAuth k t ∈ (configureTail c pid diags events1 cl k t lic).2 := by
  unfold configureTail
  by_cases hl : doCheckLicense lic <;>
    cases hck : c.checkArtifactoryLicense (c.addAuth cl k t).1 licenseTypes <;>
    cases hv : (c.getArtifactoryVersion (c.addAuth cl k t).1).2 <;>
    simp [hl, hck, hv]

lemma configureTail_license_mem (c : Collaborators) (pid : String) (diags : List Diagnostic)
    (events1 : List CallEvent) (cl : RestyClient) (k t : String) (lic : Option Bool)
    (hl : doCheckLicense lic = true) :
    CallEvent.checkLicense ∈ (configureTail c pid diags events1 cl k t lic).2 := by
  unfold configureTail
  cases hck : c.checkArtifactoryLicense (c.addAuth cl k t).1 licenseTypes <;>
    cases hv : (c.getArtifactoryVersion (c.addAuth cl k t).1).2 <;>
    simp [hl, hck, hv]

lemma configureTail_success (c : Collaborators) (pid : String) (diags : List Diagnostic)
    (events1 : List CallEvent) (cl : RestyClient) (k t : String) (lic : Option Bool)
    (cl2 : RestyClient) (ver : String)
    (haa : c.addAuth cl k t = (cl2, none))
    (hlic : doCheckLicense lic = true → c.checkArtifactoryLicense cl2 licenseTypes = none)
    (hver : c.getArtifactoryVersion cl2 = (ver, none)) :
    configureTail c pid diags events1 cl k t lic =
      ({ diagnostics := diags,
         dataSourceData := some ⟨cl2, pid, ver⟩, resourceData := some ⟨cl2, pid, ver⟩ },
       events1 ++ [CallEvent.addAuth k t] ++
         (if doCheckLicense lic then [CallEvent.checkLicense] else []) ++
         [CallEvent.getVersion, CallEvent.sendUsage]) := by
  unfold configureTail
  rw [haa]
  by_cases hl : doCheckLicense lic
  · simp [hl, hlic hl, hver, List.append_assoc]
  · simp [hl, hver, List.append_assoc]

lemma configureTail_license_abort (c : Collaborators) (pid : String) (diags : List Diagnostic)
    (events1 : List CallEvent) (cl : RestyClient) (k t : String) (lic : Option Bool)
    (cl2 : RestyClient) (e : String)
    (haa : c.addAuth cl k t = (cl2, none))
    (hl : doCheckLicense lic = true)
    (hle : c.checkArtifactoryLicense cl2 licenseTypes = some e) :
    configureTail c pid diags events1 cl k t lic =
      ({ diagnostics := diags ++ [⟨Severity.error, "Error checking Artifactory license", e⟩],
         dataSourceData := none, resourceData := none },
       events1 ++ [CallEvent.addAuth k t, CallEvent.checkLicense]) := by
  unfold configureTail
  rw [haa]
  simp [hl, hle, List.append_assoc]

lemma configureTail_no_license_event (c : Collaborators) (pid : String)
    (diags : List Diagnostic) (events1 : List CallEvent) (cl : RestyClient)
    (k t : String) (lic : Option Bool)
    (hl : doCheckLicense lic = false)
    (h1 : CallEvent.checkLicense ∉ events1) :
    CallEvent.checkLicense ∉ (configureTail c pid diags events1 cl k t lic).2 := by
  unfold configureTail
  cases hv : (c.getArtifactoryVersion (c.addAuth cl k t).1).2 <;>
    simp [hl, hv, h1]

lemma configureTail_meta (c : Collaborators) (pid : String) (diags : List Diagnostic)
    (events1 : List CallEvent) (cl : RestyClient) (k t : String) (lic : Option Bool) :
    ((configureTail c pid diags events1 cl k t lic).1.dataSourceData =
       (configureTail c pid diags events1 cl k t lic).1.resourceData)
    ∧ (∀ m, (configureTail c pid diags events1 cl k t lic).1.dataSourceData = some m →
        m.productId = pid ∧ c.getArtifactoryVersion m.client = (m.artifactoryVersion, none)
          ∧ CallEvent.sendUsage ∈ (configureTail c pid diags events1 cl k t lic).2)
    ∧ (CallEvent.sendUsage ∉ (configureTail c pid diags events1 cl k t lic).2 →
        (configureTail c pid diags events1 cl k t lic).1.dataSourceData = none
          ∧ (configureTail c pid diags events1 cl k t lic).1.resourceData = none) := by
  unfold configureTail
  by_cases hl : doCheckLicense lic <;>
    cases hck : c.checkArtifactoryLicense (c.addAuth cl k t).1 licenseTypes <;>
    cases hv : (c.getArtifactoryVersion (c.addAuth cl k t).1).2 <;>
    simp [hl, hck, hv, Prod.ext_iff]

lemma OIDCTokenExchange_empty (c : Collaborators) (cl : RestyClient) :
    OIDCTokenExchange c cl "" = (("", none), []) := by
  simp [OIDCTokenExchange]

lemma configureTail_no_oidc_event (c : Collaborators) (pid : String)
    (diags : List Diagnostic) (events1 : List CallEvent) (cl : RestyClient)
    (k t : String) (lic : Option Bool) (nm : String)
    (h1 : CallEvent.oidcExchange nm ∉ events1) :
    CallEvent.oidcExchange nm ∉ (configureTail c pid diags events1 cl k t lic).2 := by
  unfold configureTail
  by_cases hl : doCheckLicense lic <;>
    cases hck : c.checkArtifactoryLicense (c.addAuth cl k t).1 licenseTypes <;>
    cases hv : (c.getArtifactoryVersion (c.addAuth cl k t).1).2 <;>
    simp [hl, hck, hv, h1]

lemma configureTail_no_missing_cred (c : Collaborators) (pid : String)
    (diags : List Diagnostic) (events1 : List CallEvent) (cl : RestyClient)
    (k t : String) (lic : Option Bool)
    (h : missingCredentialDiag ∉ diags) :
    missingCredentialDiag ∉ (configureTail c pid diags events1 cl k t lic).1.diagnostics := by
  unfold configureTail
  by_cases hl : doCheckLicense lic <;>
    cases hck : c.checkArtifactoryLicense (c.addAuth cl k t).1 licenseTypes <;>
    cases hv : (c.getArtifactoryVersion (c.addAuth cl k t).1).2 <;>
    cases ha : (c.addAuth cl k t).2 <;>
    simp [hl, hck, hv, ha, missingCredentialDiag, Diagnostic.mk.injEq] <;>
    exact h

lemma configureTail_events (c : Collaborators) (pid : String) (diags : List Diagnostic)
    (events1 : List CallEvent) (cl : RestyClient) (k t : String) (lic : Option Bool) :
    ∃ rest, (configureTail c pid diags events1 cl k t lic).2 = events1 ++ rest := by
  unfold configureTail
  by_cases hl : doCheckLicense lic
  · cases hck : c.checkArtifactoryLicense (c.addAuth cl k t).1 licenseTypes
    · cases hv : (c.getArtifactoryVersion (c.addAuth cl k t).1).2
      · exact ⟨[CallEvent.addAuth k t, CallEvent.checkLicense, CallEvent.getVersion,
          CallEvent.sendUsage], by simp [hl, hck, hv, List.append_assoc]⟩
      · exact ⟨[CallEvent.addAuth k t, CallEvent.checkLicense, CallEvent.getVersion],
          by simp [hl, hck, hv, List.append_assoc]⟩
    · exact ⟨[CallEvent.addAuth k t, CallEvent.checkLicense],
        by simp [hl, hck, List.append_assoc]⟩
  · cases hv : (c.getArtifactoryVersion (c.addAuth cl k t).1).2
    · exact ⟨[CallEvent.addAuth k t, CallEvent.getVersion, CallEvent.sendUsage],
        by simp [hl, hv, List.append_assoc]⟩
    · exact ⟨[CallEvent.addAuth k t, CallEvent.getVersion],
        by simp [hl, hv, List.append_assoc]⟩

lemma Configure_reach_auth (env : String → String) (config : ArtifactoryProviderModel)
    (ds : List Diagnostic) (c : Collaborators) (pid u : String) (cl : RestyClient)
    (oidcTok tok : String)
    (hds : hasErrorDiag ds = false)
    (hu : u = (if config.url ≠ "" then config.url
               else CheckEnvVars env ["JFROG_URL", "ARTIFACTORY_URL"] ""))
    (hune : u ≠ "")
    (hbuild : c.build u pid = (cl, none))
    (hoidc : (OIDCTokenExchange c cl config.oidcProviderName).1 = (oidcTok, none))
    (htok : tok = (if config.accessToken ≠ "" then config.accessToken
                   else if oidcTok ≠ "" then oidcTok
                   else CheckEnvVars env ["JFROG_ACCESS_TOKEN", "ARTIFACTORY_ACCESS_TOKEN"] ""))
    (hcred : ¬(config.apiKey = "" ∧ tok = "")) :
    Configure env (config, ds) c pid =
      configureTail c pid ds
        (CallEvent.build u pid :: (OIDCTokenExchange c cl config.oidcProviderName).2)
        cl config.apiKey tok config.checkLicense := by
  subst hu htok
  simp only [Configure, hds, Bool.false_eq_true, if_false]
  rw [if_neg hune, hbuild]
  simp only []
  rw [hoidc]
  simp only []
  rw [if_neg hcred]


/-- Claim C1: behaviour of the code when every preceding step succeeds but the
version lookup fails.  Configure records an error-severity diagnostic (not a
warning) and returns early: no ProviderMetadata is released and the telemetry
send is never reached.  This contradicts the claim that a warning-level
diagnostic is recorded, configuration proceeds and the released metadata
carries an empty ArtifactoryVersion. -/
theorem configure_version_error_aborts :
    Configure emptyEnv (⟨"https://x.example/artifactory", "t1", "", "", none⟩, [])
        versionFailCollab "productId" =
      ({ diagnostics := [⟨Severity.error, "Error getting Artifactory version",
           "The provider functionality might be affected by the absence of Artifactory version in the context. connection refused"⟩],
         dataSourceData := none, resourceData := none },
       [CallEvent.build "https://x.example/artifactory" "productId",
        CallEvent.addAuth "" "t1", CallEvent.checkLicense, CallEvent.getVersion]) := by
  rfl

/-- Claim C2: the access token handed to client.AddAuth is the ordered override
chain (environment JFROG then ARTIFACTORY access token, overridden by a
non-empty OIDC token, overridden by a non-empty config access token); the
attached credential prefers the access token over the api key, and with only an
api key resolved the api key is the credential and configuration succeeds. -/
theorem configure_credential_override_chain (env : String → String)
    (config : ArtifactoryProviderModel) (ds : List Diagnostic) (c : Collaborators)
    (pid u : String) (cl cl2 : RestyClient) (oidcTok tok ver : String)
    (hds : hasErrorDiag ds = false)
    (hu : u = (if config.url ≠ "" then config.url
               else CheckEnvVars env ["JFROG_URL", "ARTIFACTORY_URL"] ""))
    (hune : u ≠ "")
    (hbuild : c.build u pid = (cl, none))
    (hoidc : (OIDCTokenExchange c cl config.oidcProviderName).1 = (oidcTok, none))
    (htok : tok = (if config.accessToken ≠ "" then config.accessToken
                   else if oidcTok ≠ "" then oidcTok
                   else if env "JFROG_ACCESS_TOKEN" ≠ "" then env "JFROG_ACCESS_TOKEN"
                   else if env "ARTIFACTORY_ACCESS_TOKEN" ≠ "" then env "ARTIFACTORY_ACCESS_TOKEN"
                   else ""))
    (hcred : config.apiKey ≠ "" ∨ tok ≠ "")
    (haa : c.addAuth cl config.apiKey tok = (cl2, none))
    (hlic : doCheckLicense config.checkLicense = true →
      c.checkArtifactoryLicense cl2 licenseTypes = none)
    (hver : c.getArtifactoryVersion cl2 = (ver, none)) :
    CallEvent.addAuth config.apiKey tok ∈ (Configure env (config, ds) c pid).2
    ∧ (tok ≠ "" → resolvedCredential config.apiKey tok = Credential.accessToken tok)
    ∧ (tok = "" → config.apiKey ≠ "" ∧
        resolvedCredential config.apiKey tok = Credential.apiKey config.apiKey)
    ∧ hasErrorDiag (Configure env (config, ds) c pid).1.diagnostics = false
    ∧ (Configure env (config, ds) c pid).1.dataSourceData = some ⟨cl2, pid, ver⟩ := by
  have htok2 : tok = (if config.accessToken ≠ "" then config.accessToken
      else if oidcTok ≠ "" then oidcTok
      else CheckEnvVars env ["JFROG_ACCESS_TOKEN", "ARTIFACTORY_ACCESS_TOKEN"] "") := by
    rw [checkEnvVars_pair]
    exact htok
  have hcred2 : ¬(config.apiKey = "" ∧ tok = "") := by tauto
  have hrun := Configure_reach_auth env config ds c pid u cl oidcTok tok hds hu hune hbuild
    hoidc htok2 hcred2
  rw [hrun, configureTail_success c pid ds _ cl config.apiKey tok config.checkLicense cl2 ver
    haa hlic hver]
  refine ⟨by simp, ?_, ?_, by simpa using hds, rfl⟩
  · intro h
    simp [resolvedCredential, h]
  · intro h
    refine ⟨?_, by simp [resolvedCredential, h]⟩
    rcases hcred with h2 | h2
    · exact h2
    · exact absurd h h2

/-- Witness for the Claim C2 theorem: only an api key resolves, it becomes the
credential and configuration succeeds. -/
theorem configure_credential_override_chain_witness :
    CallEvent.addAuth "k1" "" ∈
      (Configure emptyEnv (⟨"https://x.example/artifactory", "", "k1", "", none⟩, [])
        stubCollab "pid").2
    ∧ resolvedCredential "k1" "" = Credential.apiKey "k1"
    ∧ hasErrorDiag (Configure emptyEnv
        (⟨"https://x.example/artifactory", "", "k1", "", none⟩, [])
        stubCollab "pid").1.diagnostics = false
    ∧ (Configure emptyEnv (⟨"https://x.example/artifactory", "", "k1", "", none⟩, [])
        stubCollab "pid").1.dataSourceData = some ⟨⟨1⟩, "pid", "7.77.0"⟩ := by
  have h := configure_credential_override_chain emptyEnv
    ⟨"https://x.example/artifactory", "", "k1", "", none⟩ [] stubCollab "pid"
    "https://x.example/artifactory" ⟨0⟩ ⟨1⟩ "" "" "7.77.0"
    rfl rfl (by decide) rfl rfl rfl (Or.inl (by decide)) rfl (fun _ => rfl) rfl
  exact ⟨h.1, (h.2.2.1 rfl).2, h.2.2.2.1, h.2.2.2.2⟩

/-- Claim C3, counterexample: with both a config access token c and an OIDC
exchange yielding o, the token attached is c, not the OIDC token o, refuting
the claimed precedence of the OIDC token over the config access token. -/
theorem configure_oidc_loses_to_config_token :
    (Configure emptyEnv (⟨"https://x.example", "c", "", "p", some false⟩, [])
        oidcTokenCollab "pid").2 =
      [CallEvent.build "https://x.example" "pid", CallEvent.oidcExchange "p",
       CallEvent.addAuth "" "c", CallEvent.getVersion, CallEvent.sendUsage]
    ∧ CallEvent.addAuth "" "o" ∉
        (Configure emptyEnv (⟨"https://x.example", "c", "", "p", some false⟩, [])
          oidcTokenCollab "pid").2
    ∧ resolvedCredential "" "c" = Credential.accessToken "c" := by
  refine ⟨rfl, ?_, rfl⟩
  decide

/-- Claim C3, amended: the precedence order, highest wins, is explicit config
access token, then OIDC-exchanged token, then environment access token, then
config api key; in particular a non-empty config access token is chosen even
when the OIDC exchange returned a token. -/
theorem configure_config_token_precedence (env : String → String)
    (config : ArtifactoryProviderModel) (ds : List Diagnostic) (c : Collaborators)
    (pid u : String) (cl : RestyClient) (oidcTok tok : String)
    (hds : hasErrorDiag ds = false)
    (hu : u = (if config.url ≠ "" then config.url
               else CheckEnvVars env ["JFROG_URL", "ARTIFACTORY_URL"] ""))
    (hune : u ≠ "")
    (hbuild : c.build u pid = (cl, none))
    (hoidc : (OIDCTokenExchange c cl config.oidcProviderName).1 = (oidcTok, none))
    (htok : tok = (if config.accessToken ≠ "" then config.accessToken
                   else if oidcTok ≠ "" then oidcTok
                   else if env "JFROG_ACCESS_TOKEN" ≠ "" then env "JFROG_ACCESS_TOKEN"
                   else if env "ARTIFACTORY_ACCESS_TOKEN" ≠ "" then env "ARTIFACTORY_ACCESS_TOKEN"
                   else ""))
    (hcred : config.apiKey ≠ "" ∨ tok ≠ "") :
    CallEvent.addAuth config.apiKey tok ∈ (Configure env (config, ds) c pid).2
    ∧ (config.accessToken ≠ "" → tok = config.accessToken)
    ∧ (config.accessToken = "" → oidcTok ≠ "" → tok = oidcTok)
    ∧ (config.accessToken = "" → oidcTok = "" →
        tok = (if env "JFROG_ACCESS_TOKEN" ≠ "" then env "JFROG_ACCESS_TOKEN"
               else if env "ARTIFACTORY_ACCESS_TOKEN" ≠ "" then env "ARTIFACTORY_ACCESS_TOKEN"
               else ""))
    ∧ (tok ≠ "" → resolvedCredential config.apiKey tok = Credential.accessToken tok)
    ∧ (tok = "" → resolvedCredential config.apiKey tok = Credential.apiKey config.apiKey) := by
  have htok2 : tok = (if config.accessToken ≠ "" then config.accessToken
      else if oidcTok ≠ "" then oidcTok
      else CheckEnvVars env ["JFROG_ACCESS_TOKEN", "ARTIFACTORY_ACCESS_TOKEN"] "") := by
    rw [checkEnvVars_pair]
    exact htok
  have hcred2 : ¬(config.apiKey = "" ∧ tok = "") := by tauto
  have hrun := Configure_reach_auth env config ds c pid u cl oidcTok tok hds hu hune hbuild
    hoidc htok2 hcred2
  rw [hrun]
  refine ⟨configureTail_addAuth_mem _ _ _ _ _ _ _ _, ?_, ?_, ?_, ?_, ?_⟩
  · intro h
    simp [htok, h]
  · intro h h2
    simp [htok, h, h2]
  · intro h h2
    simp [htok, h, h2]
  · intro h
    simp [resolvedCredential, h]
  · intro h
    simp [resolvedCredential, h]

/-- Witness for the amended Claim C3 theorem: the counterexample scenario, in
which the config token c wins over the OIDC token o. -/
theorem configure_config_token_precedence_witness :
    CallEvent.addAuth "" "c" ∈
      (Configure emptyEnv (⟨"https://x.example", "c", "", "p", some false⟩, [])
        oidcTokenCollab "pid").2
    ∧ resolvedCredential "" "c" = Credential.accessToken "c" := by
  have h := configure_config_token_precedence emptyEnv
    ⟨"https://x.example", "c", "", "p", some false⟩ [] oidcTokenCollab "pid"
    "https://x.example" ⟨0⟩ "o" "c"
    rfl rfl (by decide) rfl rfl rfl (Or.inr (by decide))
  exact ⟨h.1, h.2.2.2.2.1 (by decide)⟩

/-- Claim C4: behaviour of the code when client.AddAuth fails.  The error
diagnostic is recorded, but there is no early return: the license check, the
version lookup and the telemetry send all still run, and ProviderMetadata is
still assigned to DataSourceData and ResourceData.  This contradicts the
claim that an AddAuth error aborts initialization before any later step. -/
theorem configure_addAuth_error_continues :
    Configure emptyEnv (⟨"https://x.example/artifactory", "t1", "", "", none⟩, [])
        addAuthFailCollab "productId" =
      ({ diagnostics := [⟨Severity.error, "Error adding Auth to Resty client", "auth refused"⟩],
         dataSourceData := some ⟨⟨99⟩, "productId", "7.90.4"⟩,
         resourceData := some ⟨⟨99⟩, "productId", "7.90.4"⟩ },
       [CallEvent.build "https://x.example/artifactory" "productId",
        CallEvent.addAuth "" "t1", CallEvent.checkLicense,
        CallEvent.getVersion, CallEvent.sendUsage]) := by
  rfl

/-- Claim C5: with an empty OIDC provider name no token exchange is ever
attempted, and when the exchange is attempted and fails, configuration fails
hard with the exchange error and nothing further runs. -/
theorem configure_oidc_gating (env : String → String) (config : ArtifactoryProviderModel)
    (ds : List Diagnostic) (c : Collaborators) (pid u : String) (cl : RestyClient)
    (tok e : String)
    (hds : hasErrorDiag ds = false)
    (hu : u = (if config.url ≠ "" then config.url
               else CheckEnvVars env ["JFROG_URL", "ARTIFACTORY_URL"] "")) :
    (config.oidcProviderName = "" →
      ∀ nm, CallEvent.oidcExchange nm ∉ (Configure env (config, ds) c pid).2)
    ∧ (u ≠ "" → c.build u pid = (cl, none) → config.oidcProviderName ≠ "" →
        c.oidcExchangeRaw cl config.oidcProviderName = (tok, some e) →
        Configure env (config, ds) c pid =
          ({ diagnostics := ds ++ [⟨Severity.error, "Failed OIDC ID token exchange", e⟩],
             dataSourceData := none, resourceData := none },
           [CallEvent.build u pid, CallEvent.oidcExchange config.oidcProviderName])) := by
  subst hu
  constructor
  · intro hnm nm
    simp only [Configure, hds, Bool.false_eq_true, if_false, hnm, OIDCTokenExchange_empty]
    repeat' split
    all_goals first
      | simp
      | (apply configureTail_no_oidc_event; simp)
  · intro hune hbuild hnm hex
    simp only [Configure, hds, Bool.false_eq_true, if_false]
    rw [if_neg hune, hbuild]
    simp only []
    simp only [OIDCTokenExchange, if_neg hnm]
    rw [hex]

/-- Witness for the Claim C5 theorem: a configured provider name whose
exchange fails makes configuration fail hard. -/
theorem configure_oidc_gating_witness :
    Configure emptyEnv (⟨"https://x.example", "", "k1", "p", none⟩, [])
        oidcFailCollab "pid" =
      ({ diagnostics := [⟨Severity.error, "Failed OIDC ID token exchange", "exchange failed"⟩],
         dataSourceData := none, resourceData := none },
       [CallEvent.build "https://x.example" "pid", CallEvent.oidcExchange "p"]) := by
  have h := configure_oidc_gating emptyEnv ⟨"https://x.example", "", "k1", "p", none⟩ []
    oidcFailCollab "pid" "https://x.example" ⟨0⟩ "" "exchange failed" rfl rfl
  exact h.2 (by decide) rfl (by decide) rfl

/-- Claim C6: the resolved URL is the config value when non-empty, else the
first non-empty of JFROG_URL then ARTIFACTORY_URL; when it is empty,
configuration fails with the Missing URL Configuration error before any
client is built, and otherwise the client is built with the resolved URL. -/
theorem configure_url_resolution (env : String → String) (config : ArtifactoryProviderModel)
    (ds : List Diagnostic) (c : Collaborators) (pid : String)
    (hds : hasErrorDiag ds = false) :
    ((if config.url ≠ "" then config.url
      else if env "JFROG_URL" ≠ "" then env "JFROG_URL"
      else if env "ARTIFACTORY_URL" ≠ "" then env "ARTIFACTORY_URL" else "") = "" →
      Configure env (config, ds) c pid =
        ({ diagnostics := ds ++ [missingUrlDiag],
           dataSourceData := none, resourceData := none }, []))
    ∧ ((if config.url ≠ "" then config.url
        else if env "JFROG_URL" ≠ "" then env "JFROG_URL"
        else if env "ARTIFACTORY_URL" ≠ "" then env "ARTIFACTORY_URL" else "") ≠ "" →
      ∃ rest, (Configure env (config, ds) c pid).2 =
        CallEvent.build (if config.url ≠ "" then config.url
          else if env "JFROG_URL" ≠ "" then env "JFROG_URL"
          else if env "ARTIFACTORY_URL" ≠ "" then env "ARTIFACTORY_URL" else "") pid :: rest) := by
  have hcev : CheckEnvVars env ["JFROG_URL", "ARTIFACTORY_URL"] "" =
      if env "JFROG_URL" ≠ "" then env "JFROG_URL"
      else if env "ARTIFACTORY_URL" ≠ "" then env "ARTIFACTORY_URL" else "" :=
    checkEnvVars_pair env _ _
  constructor
  · intro h0
    simp only [Configure, hcev, hds, Bool.false_eq_true, if_false, h0]
    simp
  · intro h0
    simp only [Configure, hcev, hds, Bool.false_eq_true, if_false]
    rw [if_neg h0]
    repeat' split
    all_goals first
      | exact ⟨_, rfl⟩
      | (obtain ⟨rest, hr⟩ := configureTail_events _ _ _ _ _ _ _ _
         exact ⟨_, by rw [hr, List.cons_append]⟩)

/-- Witness for the Claim C6 theorem: nothing sets a URL, so configuration
fails with the missing-URL diagnostic and no collaborator call is made. -/
theorem configure_url_resolution_witness :
    Configure emptyEnv (⟨"", "", "", "", none⟩, []) stubCollab "pid" =
      ({ diagnostics := [missingUrlDiag], dataSourceData := none, resourceData := none },
       []) := by
  exact (configure_url_resolution emptyEnv ⟨"", "", "", "", none⟩ [] stubCollab "pid" rfl).1 rfl


/-- Claim C7: when neither an api key nor any access token resolves non-empty,
configuration fails with the Missing JFrog API key or Access Token error and
stops; when at least one resolves, that check passes and the flow reaches the
credential attachment. -/
theorem configure_missing_credential_check (env : String → String)
    (config : ArtifactoryProviderModel) (ds : List Diagnostic) (c : Collaborators)
    (pid u : String) (cl : RestyClient) (oidcTok tok : String)
    (hds : hasErrorDiag ds = false)
    (hu : u = (if config.url ≠ "" then config.url
               else CheckEnvVars env ["JFROG_URL", "ARTIFACTORY_URL"] ""))
    (hune : u ≠ "")
    (hbuild : c.build u pid = (cl, none))
    (hoidc : (OIDCTokenExchange c cl config.oidcProviderName).1 = (oidcTok, none))
    (htok : tok = (if config.accessToken ≠ "" then config.accessToken
                   else if oidcTok ≠ "" then oidcTok
                   else if env "JFROG_ACCESS_TOKEN" ≠ "" then env "JFROG_ACCESS_TOKEN"
                   else if env "ARTIFACTORY_ACCESS_TOKEN" ≠ "" then env "ARTIFACTORY_ACCESS_TOKEN"
                   else "")) :
    (config.apiKey = "" ∧ tok = "" →
      Configure env (config, ds) c pid =
        ({ diagnostics := ds ++ [missingCredentialDiag],
           dataSourceData := none, resourceData := none },
         CallEvent.build u pid :: (OIDCTokenExchange c cl config.oidcProviderName).2))
    ∧ (¬(config.apiKey = "" ∧ tok = "") →
        missingCredentialDiag ∉ (Configure env (config, ds) c pid).1.diagnostics
        ∧ CallEvent.addAuth config.apiKey tok ∈ (Configure env (config, ds) c pid).2) := by
  have htok2 : tok = (if config.accessToken ≠ "" then config.accessToken
      else if oidcTok ≠ "" then oidcTok
      else CheckEnvVars env ["JFROG_ACCESS_TOKEN", "ARTIFACTORY_ACCESS_TOKEN"] "") := by
    rw [checkEnvVars_pair]
    exact htok
  constructor
  · intro hc
    subst hu
    simp only [Configure, hds, Bool.false_eq_true, if_false]
    rw [if_neg hune, hbuild]
    simp only []
    rw [hoidc]
    simp only []
    rw [← htok2, if_pos hc]
  · intro hc
    have hrun := Configure_reach_auth env config ds c pid u cl oidcTok tok hds hu hune hbuild
      hoidc htok2 hc
    rw [hrun]
    exact ⟨configureTail_no_missing_cred _ _ _ _ _ _ _ _
        (not_mem_of_hasErrorDiag_false hds rfl),
      configureTail_addAuth_mem _ _ _ _ _ _ _ _⟩

/-- Witness for the Claim C7 theorem: no credential resolves, so configuration
fails with the missing-credential diagnostic right after the client is built. -/
theorem configure_missing_credential_check_witness :
    Configure emptyEnv (⟨"https://x.example", "", "", "", none⟩, []) stubCollab "pid" =
      ({ diagnostics := [missingCredentialDiag],
         dataSourceData := none, resourceData := none },
       [CallEvent.build "https://x.example" "pid"]) := by
  have h := configure_missing_credential_check emptyEnv
    ⟨"https://x.example", "", "", "", none⟩ [] stubCollab "pid"
    "https://x.example" ⟨0⟩ "" "" rfl rfl (by decide) rfl rfl rfl
  exact h.1 ⟨rfl, rfl⟩

/-- Claim C8: the license check runs exactly when check_license is unset or
true, a license-check error then aborts configuration, and with check_license
false the license collaborator is never called and configuration succeeds
regardless of what it would have returned. -/
theorem configure_license_gating (env : String → String)
    (config : ArtifactoryProviderModel) (ds : List Diagnostic) (c : Collaborators)
    (pid u : String) (cl cl2 : RestyClient) (oidcTok tok e ver : String)
    (hds : hasErrorDiag ds = false)
    (hu : u = (if config.url ≠ "" then config.url
               else CheckEnvVars env ["JFROG_URL", "ARTIFACTORY_URL"] ""))
    (hune : u ≠ "")
    (hbuild : c.build u pid = (cl, none))
    (hoidc : (OIDCTokenExchange c cl config.oidcProviderName).1 = (oidcTok, none))
    (htok : tok = (if config.accessToken ≠ "" then config.accessToken
                   else if oidcTok ≠ "" then oidcTok
                   else if env "JFROG_ACCESS_TOKEN" ≠ "" then env "JFROG_ACCESS_TOKEN"
                   else if env "ARTIFACTORY_ACCESS_TOKEN" ≠ "" then env "ARTIFACTORY_ACCESS_TOKEN"
                   else ""))
    (hcred : config.apiKey ≠ "" ∨ tok ≠ "")
    (haa : c.addAuth cl config.apiKey tok = (cl2, none)) :
    (doCheckLicense config.checkLicense = true →
      CallEvent.checkLicense ∈ (Configure env (config, ds) c pid).2)
    ∧ (doCheckLicense config.checkLicense = true →
        c.checkArtifactoryLicense cl2 licenseTypes = some e →
        Configure env (config, ds) c pid =
          ({ diagnostics := ds ++ [⟨Severity.error, "Error checking Artifactory license", e⟩],
             dataSourceData := none, resourceData := none },
           (CallEvent.build u pid :: (OIDCTokenExchange c cl config.oidcProviderName).2) ++
             [CallEvent.addAuth config.apiKey tok, CallEvent.checkLicense]))
    ∧ (config.checkLicense = some false →
        CallEvent.checkLicense ∉ (Configure env (config, ds) c pid).2)
    ∧ (config.checkLicense = some false →
        c.getArtifactoryVersion cl2 = (ver, none) →
        Configure env (config, ds) c pid =
          ({ diagnostics := ds, dataSourceData := some ⟨cl2, pid, ver⟩,
             resourceData := some ⟨cl2, pid, ver⟩ },
           (CallEvent.build u pid :: (OIDCTokenExchange c cl config.oidcProviderName).2) ++
             [CallEvent.addAuth config.apiKey tok, CallEvent.getVersion,
              CallEvent.sendUsage])) := by
  have htok2 : tok = (if config.accessToken ≠ "" then config.accessToken
      else if oidcTok ≠ "" then oidcTok
      else CheckEnvVars env ["JFROG_ACCESS_TOKEN", "ARTIFACTORY_ACCESS_TOKEN"] "") := by
    rw [checkEnvVars_pair]
    exact htok
  have hcred2 : ¬(config.apiKey = "" ∧ tok = "") := by tauto
  have hrun := Configure_reach_auth env config ds c pid u cl oidcTok tok hds hu hune hbuild
    hoidc htok2 hcred2
  rw [hrun]
  refine ⟨fun hl => configureTail_license_mem _ _ _ _ _ _ _ _ hl,
    fun hl hle => configureTail_license_abort _ _ _ _ _ _ _ _ _ _ haa hl hle,
    fun hf => ?_, fun hf hver => ?_⟩
  · apply configureTail_no_license_event
    · simp [doCheckLicense, hf]
    · rw [OIDCTokenExchange_events]
      split <;> simp
  · rw [configureTail_success _ _ _ _ _ _ _ _ cl2 ver haa
      (fun hdl => by simp [doCheckLicense, hf] at hdl) hver]
    simp [doCheckLicense, hf, List.append_assoc]

/-- Witness for the Claim C8 theorem: check_license is false and the license
collaborator would fail, yet it is never called and configuration succeeds. -/
theorem configure_license_gating_witness :
    CallEvent.checkLicense ∉
      (Configure emptyEnv (⟨"https://x.example", "t", "", "", some false⟩, [])
        licenseFailCollab "pid").2
    ∧ Configure emptyEnv (⟨"https://x.example", "t", "", "", some false⟩, [])
        licenseFailCollab "pid" =
        ({ diagnostics := [], dataSourceData := some ⟨⟨1⟩, "pid", "7.55.0"⟩,
           resourceData := some ⟨⟨1⟩, "pid", "7.55.0"⟩ },
         [CallEvent.build "https://x.example" "pid", CallEvent.addAuth "" "t",
          CallEvent.getVersion, CallEvent.sendUsage]) := by
  have h := configure_license_gating emptyEnv ⟨"https://x.example", "t", "", "", some false⟩ []
    licenseFailCollab "pid" "https://x.example" ⟨0⟩ ⟨1⟩ "" "t" "license not allowed" "7.55.0"
    rfl rfl (by decide) rfl rfl rfl (Or.inr (by decide)) rfl
  exact ⟨h.2.2.1 rfl, h.2.2.2 rfl rfl⟩

/-- Claim C9: DataSourceData and ResourceData always hold the same value; any
released metadata carries the given productId and exactly the version returned
without error by GetArtifactoryVersion for its client, and is released only on
the one path that also fires the telemetry send; on every early-return path
both fields stay unset. -/
theorem configure_metadata_release (env : String → String)
    (getCfg : ArtifactoryProviderModel × List Diagnostic) (c : Collaborators)
    (pid : String) :
    ((Configure env getCfg c pid).1.dataSourceData =
       (Configure env getCfg c pid).1.resourceData)
    ∧ (∀ m, (Configure env getCfg c pid).1.dataSourceData = some m →
        m.productId = pid ∧ c.getArtifactoryVersion m.client = (m.artifactoryVersion, none)
          ∧ CallEvent.sendUsage ∈ (Configure env getCfg c pid).2)
    ∧ (CallEvent.sendUsage ∉ (Configure env getCfg c pid).2 →
        (Configure env getCfg c pid).1.dataSourceData = none
          ∧ (Configure env getCfg c pid).1.resourceData = none) := by
  by_cases hE : hasErrorDiag getCfg.2
  · simp [Configure, hE]
  · simp only [Bool.not_eq_true] at hE
    simp only [Configure, hE, Bool.false_eq_true, if_false]
    repeat' split
    all_goals try simp
    all_goals exact configureTail_meta _ _ _ _ _ _ _ _

/-- Witness for the Claim C9 theorem: on a fully successful run both data
fields hold the same metadata, built from the productId and the version the
collaborator returned, and the telemetry event fired. -/
theorem configure_metadata_release_witness :
    (Configure emptyEnv (⟨"https://x.example/artifactory", "t", "", "", none⟩, [])
        stubCollab "pid").1.dataSourceData =
      (Configure emptyEnv (⟨"https://x.example/artifactory", "t", "", "", none⟩, [])
        stubCollab "pid").1.resourceData
    ∧ (Configure emptyEnv (⟨"https://x.example/artifactory", "t", "", "", none⟩, [])
        stubCollab "pid").1.dataSourceData = some ⟨⟨1⟩, "pid", "7.77.0"⟩
    ∧ stubCollab.getArtifactoryVersion ⟨1⟩ = ("7.77.0", none)
    ∧ CallEvent.sendUsage ∈
        (Configure emptyEnv (⟨"https://x.example/artifactory", "t", "", "", none⟩, [])
          stubCollab "pid").2 := by
  have h := configure_metadata_release emptyEnv
    (⟨"https://x.example/artifactory", "t", "", "", none⟩, []) stubCollab "pid"
  have h2 := h.2.1 ⟨⟨1⟩, "pid", "7.77.0"⟩ rfl
  exact ⟨h.1, rfl, h2.2.1, h2.2.2⟩

/-- Claim C10: unPackLocalGradleRepository returns a nil error for every
behaviour of the resource-data getters, and the constructor closure of
resourceArtifactoryLocalGradleRepository always produces params whose
PackageType is gradle and whose Rclass is local. -/
theorem gradle_unpack_nil_error_and_constructor (d : ResourceDataOps) :
    (unPackLocalGradleRepository d).2.2 = none
    ∧ localGradleRepositoryConstructor.base.packageType = "gradle"
    ∧ localGradleRepositoryConstructor.base.rclass = "local" :=
  ⟨rfl, rfl, rfl⟩

end ArtifactoryProvider
